import Mathlib

/-!
Shallow embedding of the verified-prediction pipeline from
`src/investment_agents/verified_prediction.py`.

Conventions of the embedding:
* Python floats are modelled as rationals (`ℚ`); the pipeline only adds,
  multiplies, divides, compares, and takes `min`/`max`, so rationals are exact.
* Fallible external fetches (`yf.Ticker(...).info`, `.news`, `.history`) are
  modelled as explicit `Option`-valued snapshot data: `none` stands for the
  `except`-branch of the corresponding `try` block in the source.
* The in-place mutation of the module-level `BEARISH_SENTIMENT_KEYWORDS`
  dictionary performed by `check_tier2_sentiment` (line 244:
  `keywords.extend(...)` on the list object stored in the dict) is modelled by
  explicit state passing: the function takes the keyword table and returns the
  possibly-updated table together with its `TierResult`.
* Human-readable strings that interpolate floating-point numbers in the source
  (`f"... {x:.1f}% ..."`) are kept as their static skeletons: number formatting
  is presentation-only and no property below depends on it.
-/

/-- Signal enum, mirroring `PredictionSignal` (source lines 65-71). -/
inductive PredictionSignal where
  | STRONG_BUY
  | BUY
  | NEUTRAL
  | AVOID
  | HIGH_RISK_DIVERGENCE
  deriving DecidableEq, Repr

/-- Result of one verification tier, mirroring the `TierResult` dataclass
(source lines 74-82). -/
structure TierResult where
  tier : Nat
  name : String
  passed : Bool
  adjustment : Int
  reason : String
  flags : List String
  deriving DecidableEq, Repr

/-- One daily OHLCV bar of the fetched price history (`hist` rows). -/
structure Row where
  open_ : ℚ
  high : ℚ
  low : ℚ
  close : ℚ
  volume : ℚ
  deriving DecidableEq, Repr

/-- Minimum of a list of rationals, seeded with the first element; `0` on the
empty list (pandas would give `NaN`, a case the guarded callers never reach). -/
def listMin : List ℚ → ℚ
  | [] => 0
  | x :: xs => xs.foldl min x

/-- Maximum of a list of rationals, seeded with the first element; `0` on the
empty list. -/
def listMax : List ℚ → ℚ
  | [] => 0
  | x :: xs => xs.foldl max x

/-- Embedding of `calculate_support_resistance` (source lines 150-161): support/resistance
from the PRIOR `lookback` days only, excluding the last (current, in-progress)
row, `hist.iloc[-(lookback+1):-1]`; returns `(0, 0)` when fewer than
`lookback + 1` rows are available. -/
def calculate_support_resistance (hist : List Row) (lookback : Nat := 20) :
    ℚ × ℚ :=
  if hist.length < lookback + 1 then (0, 0)
  else
    let prior_days := (hist.take (hist.length - 1)).drop (hist.length - 1 - lookback)
    (listMin (prior_days.map (·.low)), listMax (prior_days.map (·.high)))

/-- True ranges of the rows that follow a given previous close:
`max(high-low, |high-prev_close|, |low-prev_close|)` per row. -/
def trueRangesFrom (prevClose : ℚ) : List Row → List ℚ
  | [] => []
  | r :: rs =>
      max (r.high - r.low) (max |r.high - prevClose| |r.low - prevClose|) ::
        trueRangesFrom r.close rs

/-- True-range series of a history. `close.shift(1)` is `NaN` at the first row;
in the source, `Series.combine` with builtin `max` leaves `tr1 = high - low`
there. That first row is never inside the averaged window because callers
guard `len(hist) >= period + 1`. -/
def trueRanges : List Row → List ℚ
  | [] => []
  | r :: rs => (r.high - r.low) :: trueRangesFrom r.close rs

/-- Embedding of `calculate_atr` (source lines 131-147): mean of the last `period` true
ranges; `0` when fewer than `period + 1` rows. -/
def calculate_atr (hist : List Row) (period : Nat := 14) : ℚ :=
  if hist.length < period + 1 then 0
  else
    let tr := trueRanges hist
    ((tr.drop (tr.length - period)).foldl (· + ·) 0) / (period : ℚ)

/-- Embedding of `check_tier1_sector_momentum` (source lines 164-231). `etfChange = none`
models the `except` branch (ETF info fetch failed); `some e` models
`info.get("regularMarketChangePercent", 0) = e`. The sector-ETF symbol itself
only decorates the reason string. -/
def check_tier1_sector_momentum (symbol : String) (stock_change : ℚ)
    (etfChange : Option ℚ) : TierResult :=
  match etfChange with
  | none =>
      { tier := 1, name := "Sector Momentum", passed := true, adjustment := 0,
        reason := "Sector data unavailable", flags := [] }
  | some etf_change =>
      if stock_change > 1/2 ∧ etf_change < -(3/10) then
        { tier := 1, name := "Sector Momentum", passed := false,
          adjustment := -25,
          reason := "HIGH RISK DIVERGENCE: " ++ symbol ++ " up while sector down",
          flags := ["SECTOR_DIVERGENCE", "HIGH_RISK"] }
      else if stock_change > 0 ∧ etf_change > 0 then
        { tier := 1, name := "Sector Momentum", passed := true, adjustment := 5,
          reason := "Aligned: " ++ symbol ++ " and sector both up",
          flags := ["SECTOR_ALIGNED"] }
      else if stock_change < 0 ∧ etf_change < 0 then
        { tier := 1, name := "Sector Momentum", passed := true, adjustment := 0,
          reason := "Both weak: " ++ symbol ++ " and sector both down",
          flags := [] }
      else
        { tier := 1, name := "Sector Momentum", passed := true, adjustment := 0,
          reason := "Mixed: " ++ symbol ++ " vs sector",
          flags := ["MIXED_SIGNALS"] }

/-- Embedding of `check_tier3_volume_conviction` (source lines 300-340). -/
def check_tier3_volume_conviction (volume_ratio : ℚ) : TierResult :=
  if volume_ratio < 1/2 then
    { tier := 3, name := "Volume Conviction", passed := false,
      adjustment := -30,
      reason := "VERY LOW volume - MAX 35 percent probability",
      flags := ["VERY_LOW_VOLUME", "CONVICTION_CAP_35"] }
  else if volume_ratio < 4/5 then
    { tier := 3, name := "Volume Conviction", passed := false,
      adjustment := -20,
      reason := "LOW volume - MAX 45 percent probability",
      flags := ["LOW_VOLUME", "CONVICTION_CAP_45"] }
  else if volume_ratio ≥ 6/5 then
    { tier := 3, name := "Volume Conviction", passed := true, adjustment := 10,
      reason := "STRONG volume",
      flags := ["STRONG_VOLUME"] }
  else
    { tier := 3, name := "Volume Conviction", passed := true, adjustment := 0,
      reason := "Adequate volume",
      flags := [] }

/-- Embedding of `get_base_probability_from_backtest` (source lines 343-390). `rsi = none`
models Python `None`. NOTE the source tests `if rsi:`, Python truthiness,
which is `False` both for `None` and for the float `0.0`; the embedded guard
`x = 0` reproduces the latter. -/
def get_base_probability_from_backtest (rsi : Option ℚ) (macd_bullish : Bool)
    (above_support : Bool) (volume_ratio : ℚ) (is_friday : Bool) : ℚ :=
  let base : ℚ := 50
  let base :=
    match rsi with
    | none => base
    | some x =>
        if x = 0 then base  -- `if rsi:` is falsy at 0.0
        else if x < 30 then base + 12
        else if x < 40 then base + 6
        else if x > 70 then base - 8
        else if x > 60 then base - 3
        else base
  let base := if macd_bullish then base + 5 else base
  let base := if above_support then base + 3 else base - 10
  let base :=
    if volume_ratio ≥ 3/2 then base + 8
    else if volume_ratio ≥ 1 then base + 3
    else if volume_ratio < 4/5 then base - 10
    else base
  let base := if is_friday then base - 5 else base
  max 20 (min 85 base)

/-- Modelled from the spec wording of claim C6 ("the base probability equals 50
adjusted by: +12 if rsi < 30, ..."), for comparison against the source
function: the RSI band adjustments apply whenever an RSI value is present,
with no truthiness guard at 0. -/
def base_probability_per_claim (rsi : Option ℚ) (macd_bullish : Bool)
    (above_support : Bool) (volume_ratio : ℚ) (is_friday : Bool) : ℚ :=
  let base : ℚ := 50
  let base :=
    match rsi with
    | none => base
    | some x =>
        if x < 30 then base + 12
        else if x < 40 then base + 6
        else if x > 70 then base - 8
        else if x > 60 then base - 3
        else base
  let base := if macd_bullish then base + 5 else base
  let base := if above_support then base + 3 else base - 10
  let base :=
    if volume_ratio ≥ 3/2 then base + 8
    else if volume_ratio ≥ 1 then base + 3
    else if volume_ratio < 4/5 then base - 10
    else base
  let base := if is_friday then base - 5 else base
  max 20 (min 85 base)

/-- Case-insensitive-ready substring containment: `needle ∈ haystack` in the
Python sense of `kw in title`. -/
def containsSub (needle haystack : String) : Bool :=
  (List.range (haystack.toList.length + 1)).any
    (fun i => needle.toList.isPrefixOf (haystack.toList.drop i))

/-- The keyword table: the module-level `BEARISH_SENTIMENT_KEYWORDS` dict
(source lines 54-62), as an association list. -/
abbrev KeywordTable : Type := List (String × List String)

/-- Initial contents of `BEARISH_SENTIMENT_KEYWORDS` (source lines 54-62). -/
def BEARISH_SENTIMENT_KEYWORDS : KeywordTable :=
  [("ASML", ["euv", "lithography", "china export", "export restriction", "license"]),
   ("NVDA", ["china ban", "export control", "h100", "a100", "chip ban"]),
   ("AMD", ["china restriction", "export ban"]),
   ("LRCX", ["china", "export", "restriction", "ban"]),
   ("KLAC", ["china", "export", "restriction"]),
   ("_SEMIS", ["chip war", "semiconductor restriction", "export control"])]

/-- Lookup in the keyword table (Python `dict.get`). -/
def tableLookup : KeywordTable → String → Option (List String)
  | [], _ => none
  | (k', v) :: rest, k => if k' = k then some v else tableLookup rest k

/-- Replace the value stored at a key (models the in-place `list.extend` on the
list object the dict holds at that key). -/
def tableUpdate : KeywordTable → String → List String → KeywordTable
  | [], _, _ => []
  | (k', w) :: rest, k, v =>
      (if k' = k then (k, v) else (k', w)) :: tableUpdate rest k v

/-- The hard-coded semiconductor list of `check_tier2_sentiment`
(source line 243). -/
def tier2_semi_symbols : List String :=
  ["ASML", "LRCX", "KLAC", "NVDA", "AMD", "INTC", "AVGO", "TSM", "AMAT"]

/-- Embedding of `check_tier2_sentiment` (source lines 234-297), with the mutation of the
module-level keyword table made explicit: `keywords = BEARISH.get(symbol, [])`
aliases the stored list exactly when `symbol` has its own entry, so the
subsequent `keywords.extend(BEARISH.get("_SEMIS", []))` (run when `symbol` is
in the hard-coded semiconductor list) grows the stored entry in place; with no
entry, `.get` returns a fresh `[]` and the table is untouched.
`headlines = none` models the `except` branch of the news fetch; `some hs`
carries the article titles. This function is the keyword-assembly step:
`keywords = BEARISH.get(symbol, [])` plus, for semiconductor symbols, the
generic `_SEMIS` extension. -/
def tier2_keywords (tbl : KeywordTable) (symbol : String) : List String :=
  let keywords := (tableLookup tbl symbol).getD []
  if symbol ∈ tier2_semi_symbols then
    keywords ++ (tableLookup tbl "_SEMIS").getD []
  else keywords

/-- Decision part of the tier-2 check, as a function of the effective keyword
list (source lines 246-297): empty keywords short-circuit to PASS; a news
fetch failure fail-opens; otherwise any case-insensitive substring match of a
keyword in the first 10 headline titles FAILs with -20. -/
def tier2_decision (keywords : List String)
    (headlines : Option (List String)) : TierResult :=
  if keywords = [] then
    { tier := 2, name := "Sentiment Filter", passed := true, adjustment := 0,
      reason := "No sentiment concerns for this symbol", flags := [] }
  else
    match headlines with
    | none =>
        { tier := 2, name := "Sentiment Filter", passed := true,
          adjustment := 0, reason := "News check unavailable", flags := [] }
    | some hs =>
        let bearish_headlines := (hs.take 10).filter
          (fun title => keywords.any
            (fun kw => containsSub kw.toLower title.toLower))
        if bearish_headlines = [] then
          { tier := 2, name := "Sentiment Filter", passed := true,
            adjustment := 0, reason := "No adverse headlines detected",
            flags := [] }
        else
          { tier := 2, name := "Sentiment Filter", passed := false,
            adjustment := -20, reason := "Bearish news detected",
            flags := ["BEARISH_NEWS", "SENTIMENT_OVERRIDE"] }

/-- Full tier-2 check: the decision on the effective keyword list, paired with
the updated module table (grown in place exactly when `symbol` aliases a
stored entry and the `_SEMIS` extension ran). -/
def check_tier2_sentiment (tbl : KeywordTable) (symbol : String)
    (headlines : Option (List String)) : TierResult × KeywordTable :=
  (tier2_decision (tier2_keywords tbl symbol) headlines,
   if symbol ∈ tier2_semi_symbols ∧ (tableLookup tbl symbol).isSome then
     tableUpdate tbl symbol (tier2_keywords tbl symbol)
   else tbl)

/-- The tier-3 conviction caps of `generate_verified_prediction`
(source lines 483-489): cap at 35 if the 35-flag is present, else at 45 if
the 45-flag is present; the Bool is `volume_penalty_applied`. -/
def apply_conviction_caps (p : ℚ) (all_flags : List String) : ℚ × Bool :=
  if "CONVICTION_CAP_35" ∈ all_flags then (min p 35, true)
  else if "CONVICTION_CAP_45" ∈ all_flags then (min p 45, true)
  else (p, false)

/-- Signal determination of `generate_verified_prediction`
(source lines 513-523). -/
def determine_signal (all_flags : List String) (probability : ℚ) :
    PredictionSignal :=
  if "SECTOR_DIVERGENCE" ∈ all_flags then .HIGH_RISK_DIVERGENCE
  else if probability ≥ 70 then .STRONG_BUY
  else if probability ≥ 55 then .BUY
  else if probability ≥ 45 then .NEUTRAL
  else .AVOID

/-- The `VerifiedPrediction` dataclass (source lines 85-123). The timestamp is
an abstract tick (`datetime.now()` at call time). -/
structure VerifiedPrediction where
  symbol : String
  timestamp : Nat
  signal : PredictionSignal
  probability_of_success : ℚ
  current_price : ℚ
  support_level : ℚ
  resistance_level : ℚ
  entry_price : ℚ
  target_price : ℚ
  stop_loss : ℚ
  atr_14 : ℚ
  max_target_allowed : ℚ
  risk_reward_ratio : ℚ
  position_risk_pct : ℚ
  tier_results : List TierResult
  volume_ratio : ℚ
  volume_penalty_applied : Bool
  warnings : List String
  summary : String
  recommendation : String
  deriving DecidableEq, Repr

/-- Embedding of `_empty_prediction` (source lines 575-598). -/
def empty_prediction (timestamp : Nat) (symbol reason : String) :
    VerifiedPrediction :=
  { symbol := symbol, timestamp := timestamp, signal := .AVOID,
    probability_of_success := 0, current_price := 0, support_level := 0,
    resistance_level := 0, entry_price := 0, target_price := 0, stop_loss := 0,
    atr_14 := 0, max_target_allowed := 0, risk_reward_ratio := 0,
    position_risk_pct := 0, tier_results := [], volume_ratio := 0,
    volume_penalty_applied := false, warnings := [reason], summary := reason,
    recommendation := "Cannot generate prediction." }

/-- One frozen snapshot of everything `generate_verified_prediction` fetches or
reads from the environment for one call.

* `fetchFailure = some e` models `ticker.history` raising (outer `except`,
  source lines 570-572).
* `hist = none` models `hist is None`.
* `currentPrice` is the resolved
  `info.get("currentPrice") or info.get("regularMarketPrice", 0)`.
* `rsi` / `macdHist` are the values `calculate_rsi` / `calculate_macd` return
  on this same frozen history (source lines 426-428). They are pure functions
  of the history; they are carried in the snapshot because their pandas
  float semantics (NaN propagation through `ewm`/`rolling` and `0/0`) has no
  exact rational embedding, and nothing below depends on their formulas.
* `isFriday` / `minutesSinceOpen` are derived from the wall clock at call time
  (source lines 434-439), frozen alongside the data. -/
structure Snapshot where
  symbol : String
  fetchFailure : Option String
  hist : Option (List Row)
  currentPrice : ℚ
  currentVol : ℚ
  avgVol10d : ℚ
  stockChange : ℚ
  etfChange : Option ℚ
  headlines : Option (List String)
  rsi : Option ℚ
  macdHist : Option ℚ
  isFriday : Bool
  minutesSinceOpen : ℚ

/-- Uppercasing of one ASCII character, the effect of Python `str.upper()` on
the ticker alphabet. -/
def pyUpperChar (c : Char) : Char :=
  if 'a' ≤ c ∧ c ≤ 'z' then Char.ofNat (c.toNat - 32) else c

/-- Embedding of `symbol.upper()` (source line 395). `String.toUpper` is
definitionally opaque to the kernel, so the map is spelled out over the
character list. -/
def pyUpper (s : String) : String := String.mk (s.data.map pyUpperChar)

/-- Happy path of `generate_verified_prediction` (source lines 414-568):
everything after the history/price guards. The tier-2 result is passed in
because producing it reads (and may grow) the module-level keyword table. -/
def build_prediction (timestamp : Nat) (snap : Snapshot) (hist : List Row)
    (tier2 : TierResult) : VerifiedPrediction :=
  let symbol := pyUpper snap.symbol
  let sr := calculate_support_resistance hist 20
  let support := sr.1
  let resistance := sr.2
  let atr := calculate_atr hist 14
  let volume_ratio :=
    if snap.avgVol10d > 0 then snap.currentVol / snap.avgVol10d else 1
  let macd_bullish : Bool :=
    match snap.macdHist with
    | some h => decide (h > 0)
    | none => false
  let above_support : Bool := decide (snap.currentPrice > support)
  let early_session_warnings :=
    if 0 < snap.minutesSinceOpen ∧ snap.minutesSinceOpen < 60 then
      ["EARLY SESSION: 10:30 AM rule not met"]
    else []
  let tier1 := check_tier1_sector_momentum symbol snap.stockChange snap.etfChange
  let tier3 := check_tier3_volume_conviction volume_ratio
  let tier_results := [tier1, tier2, tier3]
  let all_flags := tier_results.flatMap (·.flags)
  let warnings := early_session_warnings ++
    all_flags.filter (fun f => containsSub "HIGH_RISK" f || containsSub "DIVERGENCE" f)
  let base_probability := get_base_probability_from_backtest snap.rsi
    macd_bullish above_support volume_ratio snap.isFriday
  let total_adjustment : Int := (tier_results.map (·.adjustment)).sum
  let capped := apply_conviction_caps (base_probability + (total_adjustment : ℚ)) all_flags
  let probability := max 15 (min 85 capped.1)
  let volume_penalty_applied := capped.2
  let entry_price := snap.currentPrice
  let max_target_allowed := snap.currentPrice + 2 * atr
  let stop_from_support := support * (98/100)
  let stop_from_atr := snap.currentPrice - atr
  let stop_loss := max stop_from_support stop_from_atr
  let risk := entry_price - stop_loss
  let target_from_rr := entry_price + risk * 2
  let target_price := min target_from_rr max_target_allowed
  let actual_reward := target_price - entry_price
  let risk_reward_ratio := if risk > 0 then actual_reward / risk else 0
  let position_risk_pct := (risk / entry_price) * 100
  let signal := determine_signal all_flags probability
  let summary :=
    match signal with
    | .HIGH_RISK_DIVERGENCE => "Stock rising against falling sector - high reversal risk."
    | .STRONG_BUY => "All tiers passed."
    | .BUY => "Favorable setup."
    | .NEUTRAL => "Mixed signals."
    | .AVOID => "Unfavorable conditions."
  let summary :=
    if volume_penalty_applied then summary ++ " Volume penalty applied." else summary
  let recommendation :=
    match signal with
    | .HIGH_RISK_DIVERGENCE => "AVOID: Wait for sector confirmation before entry."
    | .STRONG_BUY => "Entry, stop, target as computed (capped at 2x ATR)"
    | .BUY => "Consider entry with tight stop"
    | .NEUTRAL => "Wait for better setup or tier confirmation."
    | .AVOID => "Avoid entry. Risk exceeds potential reward."
  { symbol := symbol, timestamp := timestamp, signal := signal,
    probability_of_success := probability, current_price := snap.currentPrice,
    support_level := support, resistance_level := resistance,
    entry_price := entry_price, target_price := target_price,
    stop_loss := stop_loss, atr_14 := atr,
    max_target_allowed := max_target_allowed,
    risk_reward_ratio := risk_reward_ratio,
    position_risk_pct := position_risk_pct, tier_results := tier_results,
    volume_ratio := volume_ratio,
    volume_penalty_applied := volume_penalty_applied, warnings := warnings,
    summary := summary, recommendation := recommendation }

/-- Embedding of `generate_verified_prediction` (source lines 393-572) over a frozen
snapshot, with the module-level keyword table threaded explicitly (it is read
and possibly grown by the tier-2 check). -/
def generate_verified_prediction (timestamp : Nat) (snap : Snapshot)
    (tbl : KeywordTable) : VerifiedPrediction × KeywordTable :=
  let symbol := pyUpper snap.symbol
  match snap.fetchFailure with
  | some e =>
      (empty_prediction timestamp symbol ("Error: " ++ e), tbl)
  | none =>
    match snap.hist with
    | none => (empty_prediction timestamp symbol "Insufficient historical data", tbl)
    | some hist =>
        if hist.length < 25 then
          (empty_prediction timestamp symbol "Insufficient historical data", tbl)
        else if snap.currentPrice = 0 then
          (empty_prediction timestamp symbol "No current price available", tbl)
        else
          let t2 := check_tier2_sentiment tbl symbol snap.headlines
          (build_prediction timestamp snap hist t2.1, t2.2)

/-- Equality of two predictions on every field except the timestamp. -/
def EqExceptTimestamp (p q : VerifiedPrediction) : Prop :=
  p.symbol = q.symbol ∧ p.signal = q.signal ∧
  p.probability_of_success = q.probability_of_success ∧
  p.current_price = q.current_price ∧ p.support_level = q.support_level ∧
  p.resistance_level = q.resistance_level ∧ p.entry_price = q.entry_price ∧
  p.target_price = q.target_price ∧ p.stop_loss = q.stop_loss ∧
  p.atr_14 = q.atr_14 ∧ p.max_target_allowed = q.max_target_allowed ∧
  p.risk_reward_ratio = q.risk_reward_ratio ∧
  p.position_risk_pct = q.position_risk_pct ∧
  p.tier_results = q.tier_results ∧ p.volume_ratio = q.volume_ratio ∧
  p.volume_penalty_applied = q.volume_penalty_applied ∧
  p.warnings = q.warnings ∧ p.summary = q.summary ∧
  p.recommendation = q.recommendation

/-- A bland daily bar used by the concrete witnesses. -/
def sampleRow : Row := ⟨1, 3, 2, 1, 1⟩

/-- A happy-path snapshot (25 days of history, price available, all fetches
succeed) for a symbol without sentiment keywords. -/
def sampleSnapshot : Snapshot :=
  { symbol := "AAPL", fetchFailure := none,
    hist := some (List.replicate 25 sampleRow), currentPrice := 10,
    currentVol := 100, avgVol10d := 100, stockChange := 1, etfChange := some 1,
    headlines := some [], rsi := some 50, macdHist := some 1,
    isFriday := false, minutesSinceOpen := 120 }

/-- A snapshot with too little history (10 days). -/
def shortSnapshot : Snapshot :=
  { sampleSnapshot with hist := some (List.replicate 10 sampleRow) }

/-- A happy-path snapshot for ASML, a symbol with its own entry in the
keyword table that is also in the hard-coded semiconductor list. -/
def asmlSnapshot : Snapshot :=
  { sampleSnapshot with symbol := "ASML" }

/-- C3: the tier-3 volume-conviction check FAILs with adjustment -30 and the
35-cap flag below ratio 0.5, FAILs with -20 and the 45-cap flag on [0.5, 0.8),
PASSes with 0 and no cap flag on [0.8, 1.2), and PASSes with +10 at and above
1.2. -/
theorem claim_C3_tier3_volume_conviction (r : ℚ) :
    (r < 1/2 →
      (check_tier3_volume_conviction r).passed = false ∧
      (check_tier3_volume_conviction r).adjustment = -30 ∧
      "CONVICTION_CAP_35" ∈ (check_tier3_volume_conviction r).flags) ∧
    (1/2 ≤ r → r < 4/5 →
      (check_tier3_volume_conviction r).passed = false ∧
      (check_tier3_volume_conviction r).adjustment = -20 ∧
      "CONVICTION_CAP_45" ∈ (check_tier3_volume_conviction r).flags) ∧
    (4/5 ≤ r → r < 6/5 →
      (check_tier3_volume_conviction r).passed = true ∧
      (check_tier3_volume_conviction r).adjustment = 0 ∧
      "CONVICTION_CAP_35" ∉ (check_tier3_volume_conviction r).flags ∧
      "CONVICTION_CAP_45" ∉ (check_tier3_volume_conviction r).flags) ∧
    (6/5 ≤ r →
      (check_tier3_volume_conviction r).passed = true ∧
      (check_tier3_volume_conviction r).adjustment = 10) := by
  unfold check_tier3_volume_conviction
  refine ⟨fun h => ?_, fun h1 h2 => ?_, fun h1 h2 => ?_, fun h => ?_⟩
  · rw [if_pos h]
    exact ⟨rfl, rfl, by decide⟩
  · rw [if_neg (not_lt.mpr h1), if_pos h2]
    exact ⟨rfl, rfl, by decide⟩
  · rw [if_neg (not_lt.mpr (by linarith)), if_neg (not_lt.mpr h1),
      if_neg (not_le.mpr h2)]
    exact ⟨rfl, rfl, by decide, by decide⟩
  · rw [if_neg (not_lt.mpr (by linarith)), if_neg (not_lt.mpr (by linarith)),
      if_pos h]
    exact ⟨rfl, rfl⟩

/-- Witness for C3 at the claimed boundary ratios: 0.79 caps at 45, 0.80
passes with no cap, 1.19 passes with no bonus, 1.20 earns +10. -/
theorem claim_C3_tier3_volume_conviction_witness :
    ((check_tier3_volume_conviction (79/100)).adjustment = -20 ∧
      "CONVICTION_CAP_45" ∈ (check_tier3_volume_conviction (79/100)).flags) ∧
    ((check_tier3_volume_conviction (80/100)).passed = true ∧
      "CONVICTION_CAP_45" ∉ (check_tier3_volume_conviction (80/100)).flags) ∧
    (check_tier3_volume_conviction (119/100)).adjustment = 0 ∧
    (check_tier3_volume_conviction (120/100)).adjustment = 10 :=
  ⟨⟨((claim_C3_tier3_volume_conviction (79/100)).2.1 (by norm_num) (by norm_num)).2.1,
    ((claim_C3_tier3_volume_conviction (79/100)).2.1 (by norm_num) (by norm_num)).2.2⟩,
   ⟨((claim_C3_tier3_volume_conviction (80/100)).2.2.1 (by norm_num) (by norm_num)).1,
    ((claim_C3_tier3_volume_conviction (80/100)).2.2.1 (by norm_num) (by norm_num)).2.2.2⟩,
   ((claim_C3_tier3_volume_conviction (119/100)).2.2.1 (by norm_num) (by norm_num)).2.1,
   ((claim_C3_tier3_volume_conviction (120/100)).2.2.2 (by norm_num)).2⟩

/-- C2: signal classification is the stated pure function of the final
probability and the tier-1 divergence flag (`"SECTOR_DIVERGENCE"`, the flag
only the tier-1 divergence outcome emits): divergence overrides everything,
otherwise the probability thresholds 70/55/45 pick the signal. -/
theorem claim_C2_signal_classification (flags : List String) (p : ℚ) :
    ("SECTOR_DIVERGENCE" ∈ flags →
      determine_signal flags p = .HIGH_RISK_DIVERGENCE) ∧
    ("SECTOR_DIVERGENCE" ∉ flags →
      (p ≥ 70 → determine_signal flags p = .STRONG_BUY) ∧
      (p ≥ 55 → p < 70 → determine_signal flags p = .BUY) ∧
      (p ≥ 45 → p < 55 → determine_signal flags p = .NEUTRAL) ∧
      (p < 45 → determine_signal flags p = .AVOID)) := by
  unfold determine_signal
  refine ⟨fun h => by rw [if_pos h], fun h => ⟨fun h70 => ?_,
    fun h55 h70 => ?_, fun h45 h55 => ?_, fun h45 => ?_⟩⟩
  · rw [if_neg h, if_pos h70]
  · rw [if_neg h, if_neg (not_le.mpr h70), if_pos h55]
  · rw [if_neg h, if_neg (not_le.mpr h55), if_neg (by linarith), if_pos h45]
  · rw [if_neg h, if_neg (by linarith), if_neg (by linarith),
      if_neg (not_le.mpr h45)]

/-- Witness for C2: probability 70 without the divergence flag classifies as
STRONG_BUY; probability 70 with the tier-1 divergence flags classifies as
HIGH_RISK_DIVERGENCE. -/
theorem claim_C2_signal_classification_witness :
    determine_signal [] 70 = .STRONG_BUY ∧
    determine_signal ["SECTOR_DIVERGENCE", "HIGH_RISK"] 70 =
      .HIGH_RISK_DIVERGENCE :=
  ⟨((claim_C2_signal_classification [] 70).2 (by decide)).1 (le_refl 70),
   (claim_C2_signal_classification ["SECTOR_DIVERGENCE", "HIGH_RISK"] 70).1
     (by decide)⟩

/-- Counterexample for C6: the claim says the +12 oversold adjustment applies
whenever rsi < 30, but the source guards the whole RSI band with Python
truthiness (`if rsi:`), which is false at rsi = 0.0, so at rsi = 0 the code
yields 56 while the claimed arithmetic yields 68. -/
theorem claim_C6_counterexample :
    get_base_probability_from_backtest (some 0) false true 1 false ≠
      base_probability_per_claim (some 0) false true 1 false := by
  norm_num [get_base_probability_from_backtest, base_probability_per_claim,
    min_def, max_def]

/-- C6 (amended): for every input whose RSI is not the float 0.0, the base
probability is exactly the claimed hand-tuned score: 50, plus the RSI band
adjustment, +5 for bullish MACD histogram, +3 or -10 for above or below support,
the volume-ratio tier adjustment, -5 on Friday, clamped to [20, 85]. -/
theorem claim_C6_base_probability (rsi : Option ℚ) (macd_bullish : Bool)
    (above_support : Bool) (volume_ratio : ℚ) (is_friday : Bool)
    (h : rsi ≠ some 0) :
    get_base_probability_from_backtest rsi macd_bullish above_support
        volume_ratio is_friday =
      base_probability_per_claim rsi macd_bullish above_support volume_ratio
        is_friday := by
  cases rsi with
  | none => rfl
  | some x =>
      have hx : ¬ x = 0 := fun h0 => h (by rw [h0])
      unfold get_base_probability_from_backtest base_probability_per_claim
      simp only [if_neg hx]

/-- Witness for C6 at rsi = 25 (oversold band, adjustment +12):
the source function and the claimed arithmetic agree. -/
theorem claim_C6_base_probability_witness :
    get_base_probability_from_backtest (some 25) false true 1 false =
      base_probability_per_claim (some 25) false true 1 false :=
  claim_C6_base_probability (some 25) false true 1 false (by decide)

/-- Counterexample for C7: in the divergence case the claim names the emitted
flag `HIGH_RISK_DIVERGENCE`, but the source emits the flags
`SECTOR_DIVERGENCE` and `HIGH_RISK` (the literal string
`HIGH_RISK_DIVERGENCE` is the name of the signal enum member, not a tier
flag): at stock change +1% and sector change -1% the tier FAILs with -25 yet
carries no `HIGH_RISK_DIVERGENCE` flag. -/
theorem claim_C7_counterexample :
    (check_tier1_sector_momentum "NVDA" 1 (some (-1))).passed = false ∧
    (check_tier1_sector_momentum "NVDA" 1 (some (-1))).adjustment = -25 ∧
    "HIGH_RISK_DIVERGENCE" ∉
      (check_tier1_sector_momentum "NVDA" 1 (some (-1))).flags := by
  have h : check_tier1_sector_momentum "NVDA" 1 (some (-1)) =
      { tier := 1, name := "Sector Momentum", passed := false,
        adjustment := -25,
        reason := "HIGH RISK DIVERGENCE: " ++ "NVDA" ++ " up while sector down",
        flags := ["SECTOR_DIVERGENCE", "HIGH_RISK"] } := by
    simp only [check_tier1_sector_momentum]
    rw [if_pos ⟨by norm_num, by norm_num⟩]
  rw [h]
  exact ⟨rfl, rfl, by decide⟩

/-- C7 (amended): the tier-1 sector-momentum decision table as claimed, except
that the divergence outcome carries the flags `SECTOR_DIVERGENCE` and
`HIGH_RISK` (the pair that later drives the HIGH_RISK_DIVERGENCE signal),
not a flag literally named `HIGH_RISK_DIVERGENCE`: FAIL with -25 when the
stock is up more than 0.5% while the sector ETF is down more than 0.3%; PASS
with +5 when both changes are positive; PASS with 0 when both are negative;
PASS with 0 and MIXED_SIGNALS otherwise; PASS with 0 when ETF data is
unavailable (fail-open). -/
theorem claim_C7_tier1_sector_momentum (symbol : String) (sc e : ℚ) :
    (sc > 1/2 → e < -(3/10) →
      (check_tier1_sector_momentum symbol sc (some e)).passed = false ∧
      (check_tier1_sector_momentum symbol sc (some e)).adjustment = -25 ∧
      (check_tier1_sector_momentum symbol sc (some e)).flags =
        ["SECTOR_DIVERGENCE", "HIGH_RISK"]) ∧
    (sc > 0 → e > 0 →
      (check_tier1_sector_momentum symbol sc (some e)).passed = true ∧
      (check_tier1_sector_momentum symbol sc (some e)).adjustment = 5) ∧
    (sc < 0 → e < 0 →
      (check_tier1_sector_momentum symbol sc (some e)).passed = true ∧
      (check_tier1_sector_momentum symbol sc (some e)).adjustment = 0) ∧
    (¬(sc > 1/2 ∧ e < -(3/10)) → ¬(sc > 0 ∧ e > 0) → ¬(sc < 0 ∧ e < 0) →
      (check_tier1_sector_momentum symbol sc (some e)).passed = true ∧
      (check_tier1_sector_momentum symbol sc (some e)).adjustment = 0 ∧
      "MIXED_SIGNALS" ∈ (check_tier1_sector_momentum symbol sc (some e)).flags) ∧
    ((check_tier1_sector_momentum symbol sc none).passed = true ∧
      (check_tier1_sector_momentum symbol sc none).adjustment = 0) := by
  refine ⟨fun h1 h2 => ?_, fun h1 h2 => ?_, fun h1 h2 => ?_,
    fun hd hu hw => ?_, ⟨rfl, rfl⟩⟩ <;>
    simp only [check_tier1_sector_momentum]
  · rw [if_pos ⟨h1, h2⟩]
    exact ⟨rfl, rfl, rfl⟩
  · rw [if_neg (by rintro ⟨-, hlt⟩; linarith), if_pos ⟨h1, h2⟩]
    exact ⟨rfl, rfl⟩
  · rw [if_neg (by rintro ⟨hgt, -⟩; linarith),
      if_neg (by rintro ⟨hgt, -⟩; linarith), if_pos ⟨h1, h2⟩]
    exact ⟨rfl, rfl⟩
  · rw [if_neg hd, if_neg hu, if_neg hw]
    exact ⟨rfl, rfl, by simp⟩

/-- Witness for C7 at stock change +1% and ETF change -1%: the divergence row
of the decision table fires with FAIL, -25, and the divergence flags. -/
theorem claim_C7_tier1_sector_momentum_witness :
    (check_tier1_sector_momentum "NVDA" 1 (some (-1))).passed = false ∧
    (check_tier1_sector_momentum "NVDA" 1 (some (-1))).adjustment = -25 ∧
    (check_tier1_sector_momentum "NVDA" 1 (some (-1))).flags =
      ["SECTOR_DIVERGENCE", "HIGH_RISK"] :=
  (claim_C7_tier1_sector_momentum "NVDA" 1 (-1)).1 (by norm_num) (by norm_num)

/-- C4: with lookback N and a history of at least N+1 rows, the
support/resistance computation ignores the final (current-day) row entirely:
it returns the minimum low and maximum high of the N rows immediately before
the last one, independent of whatever the last row contains; with fewer than
N+1 rows it returns (0, 0). -/
theorem claim_C4_support_resistance (xs : List Row) (r : Row) (N : Nat)
    (hN : 0 < N) (hlen : N ≤ xs.length) :
    calculate_support_resistance (xs ++ [r]) N =
      (listMin ((xs.drop (xs.length - N)).map (·.low)),
       listMax ((xs.drop (xs.length - N)).map (·.high))) ∧
    ∀ ys : List Row, ys.length < N + 1 →
      calculate_support_resistance ys N = (0, 0) := by
  constructor
  · unfold calculate_support_resistance
    rw [if_neg (by simp only [List.length_append, List.length_singleton]; omega)]
    have h1 : (xs ++ [r]).length - 1 = xs.length := by
      simp only [List.length_append, List.length_singleton]
      omega
    have h2 : (xs ++ [r]).take xs.length = xs := by
      rw [List.take_append_of_le_length (le_refl xs.length), List.take_length]
    simp only [h1, h2]
  · intro ys hy
    unfold calculate_support_resistance
    rw [if_pos hy]

/-- Witness for C4: a 21-row series (20 bland rows followed by a last row with
an extreme low 0 and high 100); the result is the min low and max high of the
first 20 rows only. -/
theorem claim_C4_support_resistance_witness :
    calculate_support_resistance
        (List.replicate 20 sampleRow ++ [(⟨1, 100, 0, 1, 1⟩ : Row)]) 20 =
      (listMin (((List.replicate 20 sampleRow).drop
          ((List.replicate 20 sampleRow).length - 20)).map (·.low)),
       listMax (((List.replicate 20 sampleRow).drop
          ((List.replicate 20 sampleRow).length - 20)).map (·.high))) :=
  (claim_C4_support_resistance (List.replicate 20 sampleRow) ⟨1, 100, 0, 1, 1⟩
    20 (by decide) (by decide)).1

/-- Unfolding equation for `tableLookup` on a cons cell. -/
theorem tableLookup_cons (k0 : String) (v0 : List String) (rest : KeywordTable)
    (k : String) :
    tableLookup ((k0, v0) :: rest) k =
      if k0 = k then some v0 else tableLookup rest k := rfl

/-- Unfolding equation for `tableUpdate` on a cons cell. -/
theorem tableUpdate_cons (k0 : String) (v0 : List String) (rest : KeywordTable)
    (k : String) (v : List String) :
    tableUpdate ((k0, v0) :: rest) k v =
      (if k0 = k then (k, v) else (k0, v0)) :: tableUpdate rest k v := rfl

/-- Looking up the updated key returns the new value (when the key was
present). -/
theorem tableLookup_tableUpdate_self (tbl : KeywordTable) (k : String)
    (v : List String) :
    tableLookup (tableUpdate tbl k v) k =
      (tableLookup tbl k).map (fun _ => v) := by
  induction tbl with
  | nil => rfl
  | cons p rest ih =>
      obtain ⟨k0, v0⟩ := p
      rw [tableUpdate_cons]
      by_cases h : k0 = k
      · rw [if_pos h, tableLookup_cons, tableLookup_cons, if_pos rfl, if_pos h]
        rfl
      · rw [if_neg h, tableLookup_cons, tableLookup_cons, if_neg h, if_neg h]
        exact ih

/-- Looking up any other key is unaffected by the update. -/
theorem tableLookup_tableUpdate_ne (tbl : KeywordTable) (k k' : String)
    (v : List String) (hne : k' ≠ k) :
    tableLookup (tableUpdate tbl k v) k' = tableLookup tbl k' := by
  induction tbl with
  | nil => rfl
  | cons p rest ih =>
      obtain ⟨k0, v0⟩ := p
      rw [tableUpdate_cons]
      by_cases h : k0 = k
      · have hkk : ¬ k = k' := fun he => hne he.symm
        have hk0k : ¬ k0 = k' := fun he => hne (he.symm.trans h)
        rw [if_pos h, tableLookup_cons, tableLookup_cons, if_neg hkk,
          if_neg hk0k]
        exact ih
      · rw [if_neg h, tableLookup_cons, tableLookup_cons, ih]

/-- The table returned by the tier-2 check: grown at `symbol` exactly when
`symbol` is in the hard-coded semiconductor list and has its own entry. -/
theorem check_tier2_sentiment_table (tbl : KeywordTable) (sym : String)
    (hs : Option (List String)) :
    (check_tier2_sentiment tbl sym hs).2 =
      if sym ∈ tier2_semi_symbols ∧ (tableLookup tbl sym).isSome then
        tableUpdate tbl sym
          ((tableLookup tbl sym).getD [] ++ (tableLookup tbl "_SEMIS").getD [])
      else tbl := by
  by_cases hc : sym ∈ tier2_semi_symbols ∧ (tableLookup tbl sym).isSome
  · show (if sym ∈ tier2_semi_symbols ∧ (tableLookup tbl sym).isSome then
        tableUpdate tbl sym (tier2_keywords tbl sym) else tbl) = _
    rw [if_pos hc, if_pos hc]
    have : tier2_keywords tbl sym =
        (tableLookup tbl sym).getD [] ++ (tableLookup tbl "_SEMIS").getD [] := by
      unfold tier2_keywords
      rw [if_pos hc.1]
    rw [this]
  · show (if sym ∈ tier2_semi_symbols ∧ (tableLookup tbl sym).isSome then
        tableUpdate tbl sym (tier2_keywords tbl sym) else tbl) = _
    rw [if_neg hc, if_neg hc]

/-- Every symbol of the corrected C10 five-symbol list is in the hard-coded
semiconductor list of the tier-2 check. -/
theorem mem_tier2_semi_of_mem_keyword_semis (sym : String)
    (h : sym ∈ ["ASML", "LRCX", "KLAC", "NVDA", "AMD"]) :
    sym ∈ tier2_semi_symbols := by
  simp only [List.mem_cons, List.not_mem_nil, or_false] at h
  rcases h with rfl | rfl | rfl | rfl | rfl <;> simp [tier2_semi_symbols]

/-- C10: for every symbol with its own entry in the keyword table that is also
in the hard-coded semiconductor list (ASML, LRCX, KLAC, NVDA, AMD), a call to
the tier-2 sentiment check rewrites that symbol's stored keyword list to the
old list extended with the generic _SEMIS keywords — so whenever the _SEMIS
list is nonempty the module-level table grows instead of remaining
unchanged. -/
theorem claim_C10_tier2_table_mutation (tbl : KeywordTable) (sym : String)
    (hs : Option (List String)) (kw : List String)
    (hsym : sym ∈ ["ASML", "LRCX", "KLAC", "NVDA", "AMD"])
    (hkw : tableLookup tbl sym = some kw) :
    tableLookup ((check_tier2_sentiment tbl sym hs).2) sym =
      some (kw ++ (tableLookup tbl "_SEMIS").getD []) ∧
    ((tableLookup tbl "_SEMIS").getD [] ≠ [] →
      tableLookup ((check_tier2_sentiment tbl sym hs).2) sym ≠ some kw) := by
  have hsemi := mem_tier2_semi_of_mem_keyword_semis sym hsym
  have hmain : tableLookup ((check_tier2_sentiment tbl sym hs).2) sym =
      some (kw ++ (tableLookup tbl "_SEMIS").getD []) := by
    rw [check_tier2_sentiment_table,
      if_pos ⟨hsemi, by rw [hkw]; rfl⟩,
      tableLookup_tableUpdate_self, hkw]
    rfl
  refine ⟨hmain, fun hsne heq => ?_⟩
  rw [hmain] at heq
  have : kw ++ (tableLookup tbl "_SEMIS").getD [] = kw ++ [] := by
    simpa using Option.some.inj heq
  exact hsne (List.append_cancel_left this)

/-- Witness for C10: one call on the initial module-level table for ASML grows
the stored ASML entry from its five own keywords to eight (the three generic
_SEMIS keywords are appended). -/
theorem claim_C10_tier2_table_mutation_witness :
    tableLookup
        ((check_tier2_sentiment BEARISH_SENTIMENT_KEYWORDS "ASML"
          (some [])).2) "ASML" =
      some (["euv", "lithography", "china export", "export restriction",
        "license"] ++
        (tableLookup BEARISH_SENTIMENT_KEYWORDS "_SEMIS").getD []) :=
  (claim_C10_tier2_table_mutation BEARISH_SENTIMENT_KEYWORDS "ASML" (some [])
    ["euv", "lithography", "china export", "export restriction", "license"]
    (by decide) (by decide)).1

/-- On the happy path (no fetch failure, history present with at least 25
rows, nonzero current price) the pipeline builds a full prediction and
returns the keyword table as updated by the tier-2 check. -/
theorem generate_happy_path (t : Nat) (snap : Snapshot) (tbl : KeywordTable)
    (hist : List Row) (hf : snap.fetchFailure = none)
    (hh : snap.hist = some hist) (hl : ¬ hist.length < 25)
    (hp : ¬ snap.currentPrice = 0) :
    generate_verified_prediction t snap tbl =
      (build_prediction t snap hist
        (check_tier2_sentiment tbl (pyUpper snap.symbol) snap.headlines).1,
       (check_tier2_sentiment tbl (pyUpper snap.symbol) snap.headlines).2) := by
  simp only [generate_verified_prediction, hf, hh, if_neg hl, if_neg hp]

/-- The price-level fields of a freshly built prediction, read off the
definition: entry at current price, stop at the tighter of support x 0.98 and
one ATR below price, target at the 2-to-1 reward capped by 2 ATR, risk
percent as claimed. -/
theorem build_prediction_fields (t : Nat) (snap : Snapshot) (hist : List Row)
    (tr : TierResult) :
    (build_prediction t snap hist tr).entry_price =
      (build_prediction t snap hist tr).current_price ∧
    (build_prediction t snap hist tr).stop_loss =
      max ((build_prediction t snap hist tr).support_level * (98/100))
        ((build_prediction t snap hist tr).current_price -
          (build_prediction t snap hist tr).atr_14) ∧
    (build_prediction t snap hist tr).target_price =
      min ((build_prediction t snap hist tr).entry_price +
          ((build_prediction t snap hist tr).entry_price -
            (build_prediction t snap hist tr).stop_loss) * 2)
        ((build_prediction t snap hist tr).entry_price +
          2 * (build_prediction t snap hist tr).atr_14) ∧
    (build_prediction t snap hist tr).position_risk_pct =
      ((build_prediction t snap hist tr).entry_price -
          (build_prediction t snap hist tr).stop_loss) /
        (build_prediction t snap hist tr).entry_price * 100 :=
  ⟨rfl, rfl, rfl, rfl⟩

/-- C5: for every happy-path prediction, entry equals the current price, the
stop loss is max(support x 0.98, price - ATR14), the target is
min(entry + 2 x (entry - stop), entry + 2 x ATR14), the position risk percent
is (entry - stop) divided by entry times 100, and consequently the target
never exceeds entry + 2 x ATR14. -/
theorem claim_C5_target_stop_synthesis (t : Nat) (snap : Snapshot)
    (tbl : KeywordTable) (hist : List Row) (hf : snap.fetchFailure = none)
    (hh : snap.hist = some hist) (hl : ¬ hist.length < 25)
    (hp : ¬ snap.currentPrice = 0) :
    (generate_verified_prediction t snap tbl).1.entry_price =
      (generate_verified_prediction t snap tbl).1.current_price ∧
    (generate_verified_prediction t snap tbl).1.stop_loss =
      max ((generate_verified_prediction t snap tbl).1.support_level * (98/100))
        ((generate_verified_prediction t snap tbl).1.current_price -
          (generate_verified_prediction t snap tbl).1.atr_14) ∧
    (generate_verified_prediction t snap tbl).1.target_price =
      min ((generate_verified_prediction t snap tbl).1.entry_price +
          2 * ((generate_verified_prediction t snap tbl).1.entry_price -
            (generate_verified_prediction t snap tbl).1.stop_loss))
        ((generate_verified_prediction t snap tbl).1.entry_price +
          2 * (generate_verified_prediction t snap tbl).1.atr_14) ∧
    (generate_verified_prediction t snap tbl).1.position_risk_pct =
      ((generate_verified_prediction t snap tbl).1.entry_price -
          (generate_verified_prediction t snap tbl).1.stop_loss) /
        (generate_verified_prediction t snap tbl).1.entry_price * 100 ∧
    (generate_verified_prediction t snap tbl).1.target_price ≤
      (generate_verified_prediction t snap tbl).1.entry_price +
        2 * (generate_verified_prediction t snap tbl).1.atr_14 := by
  rw [generate_happy_path t snap tbl hist hf hh hl hp]
  obtain ⟨e1, e2, e3, e4⟩ := build_prediction_fields t snap hist
    (check_tier2_sentiment tbl (pyUpper snap.symbol) snap.headlines).1
  refine ⟨e1, e2, ?_, e4, ?_⟩
  · rw [e3, mul_comm ((build_prediction t snap hist
      (check_tier2_sentiment tbl (pyUpper snap.symbol) snap.headlines).1).entry_price -
        (build_prediction t snap hist
          (check_tier2_sentiment tbl (pyUpper snap.symbol) snap.headlines).1).stop_loss) 2]
  · rw [e3]
    exact min_le_right _ _

/-- Witness for C5 on a concrete happy-path snapshot. -/
theorem claim_C5_target_stop_synthesis_witness :
    (generate_verified_prediction 0 sampleSnapshot
        BEARISH_SENTIMENT_KEYWORDS).1.target_price ≤
      (generate_verified_prediction 0 sampleSnapshot
          BEARISH_SENTIMENT_KEYWORDS).1.entry_price +
        2 * (generate_verified_prediction 0 sampleSnapshot
          BEARISH_SENTIMENT_KEYWORDS).1.atr_14 :=
  (claim_C5_target_stop_synthesis 0 sampleSnapshot BEARISH_SENTIMENT_KEYWORDS
    (List.replicate 25 sampleRow) rfl rfl (by decide) (by decide)).2.2.2.2

/-- C1: for every happy-path prediction, the final probability equals the
backtest base probability plus the sum of the three tier adjustments, then the
tier-3 conviction caps (35 first, else 45) applied when their flags are
present, then clamped to [15, 85]; in particular, base 60 with adjustments
[+5, 0, -20] under an active 45 cap yields a final probability of 45. -/
theorem claim_C1_final_probability (t : Nat) (snap : Snapshot)
    (tbl : KeywordTable) (hist : List Row) (hf : snap.fetchFailure = none)
    (hh : snap.hist = some hist) (hl : ¬ hist.length < 25)
    (hp : ¬ snap.currentPrice = 0) :
    ((generate_verified_prediction t snap tbl).1.probability_of_success =
      max (15 : ℚ) (min (85 : ℚ) (apply_conviction_caps
        (get_base_probability_from_backtest snap.rsi
            (match snap.macdHist with
              | some h => decide (h > 0)
              | none => false)
            (decide (snap.currentPrice >
              (generate_verified_prediction t snap tbl).1.support_level))
            (generate_verified_prediction t snap tbl).1.volume_ratio
            snap.isFriday +
          ((((generate_verified_prediction t snap tbl).1.tier_results.map
              (·.adjustment)).sum : Int) : ℚ))
        ((generate_verified_prediction t snap tbl).1.tier_results.flatMap
          (·.flags))).1)) ∧
    max 15 (min 85 (apply_conviction_caps (60 + (([5, 0, -20] : List Int).sum : ℚ))
      ["SECTOR_ALIGNED", "LOW_VOLUME", "CONVICTION_CAP_45"]).1) = 45 := by
  constructor
  · rw [generate_happy_path t snap tbl hist hf hh hl hp]
    rfl
  · have hsum : (([5, 0, -20] : List Int).sum : ℚ) = -15 := by norm_num
    rw [hsum]
    rw [show apply_conviction_caps (60 + (-15 : ℚ))
        ["SECTOR_ALIGNED", "LOW_VOLUME", "CONVICTION_CAP_45"] =
        (min (60 + (-15 : ℚ)) 45, true) from by
      unfold apply_conviction_caps
      rw [if_neg (by decide), if_pos (by decide)]]
    norm_num [min_def, max_def]

/-- Witness for C1 on a concrete happy-path snapshot: the probability field
satisfies the base-plus-adjustments-then-caps-then-clamp equation. -/
theorem claim_C1_final_probability_witness :
    (generate_verified_prediction 0 sampleSnapshot
        BEARISH_SENTIMENT_KEYWORDS).1.probability_of_success =
      max (15 : ℚ) (min (85 : ℚ) (apply_conviction_caps
        (get_base_probability_from_backtest sampleSnapshot.rsi
            (match sampleSnapshot.macdHist with
              | some h => decide (h > 0)
              | none => false)
            (decide (sampleSnapshot.currentPrice >
              (generate_verified_prediction 0 sampleSnapshot
                BEARISH_SENTIMENT_KEYWORDS).1.support_level))
            (generate_verified_prediction 0 sampleSnapshot
              BEARISH_SENTIMENT_KEYWORDS).1.volume_ratio
            sampleSnapshot.isFriday +
          ((((generate_verified_prediction 0 sampleSnapshot
              BEARISH_SENTIMENT_KEYWORDS).1.tier_results.map
              (·.adjustment)).sum : Int) : ℚ))
        ((generate_verified_prediction 0 sampleSnapshot
          BEARISH_SENTIMENT_KEYWORDS).1.tier_results.flatMap
          (·.flags))).1) :=
  (claim_C1_final_probability 0 sampleSnapshot BEARISH_SENTIMENT_KEYWORDS
    (List.replicate 25 sampleRow) rfl rfl (by decide) (by decide)).1

/-- C8: with insufficient history the pipeline returns the degraded empty
prediction whose single warning is the human-readable reason string; and on
every error path (outer fetch failure, missing or short history, no current
price) the pipeline still returns a prediction object carrying a
single-warning reason rather than any distinguishable failure value. -/
theorem claim_C8_degraded_results (t : Nat) (snap : Snapshot)
    (tbl : KeywordTable) :
    (∀ hist : List Row, snap.fetchFailure = none → snap.hist = some hist →
      hist.length < 25 →
      (generate_verified_prediction t snap tbl).1 =
        empty_prediction t (pyUpper snap.symbol) "Insufficient historical data" ∧
      (generate_verified_prediction t snap tbl).1.warnings =
        ["Insufficient historical data"]) ∧
    ((snap.fetchFailure ≠ none ∨ snap.hist = none ∨
        (∃ hist, snap.hist = some hist ∧ hist.length < 25) ∨
        snap.currentPrice = 0) →
      ∃ r : String,
        (generate_verified_prediction t snap tbl).1.warnings = [r] ∧
        (generate_verified_prediction t snap tbl).1.summary = r ∧
        (generate_verified_prediction t snap tbl).1.recommendation =
          "Cannot generate prediction.") := by
  constructor
  · intro hist hf hh hl
    refine ⟨?_, ?_⟩ <;>
      simp only [generate_verified_prediction, hf, hh, if_pos hl] <;>
      try rfl
  · intro herr
    cases hF : snap.fetchFailure with
    | some e =>
        refine ⟨"Error: " ++ e, ?_, ?_, ?_⟩ <;>
          simp only [generate_verified_prediction, hF] <;> rfl
    | none =>
        cases hH : snap.hist with
        | none =>
            refine ⟨"Insufficient historical data", ?_, ?_, ?_⟩ <;>
              simp only [generate_verified_prediction, hF, hH] <;> rfl
        | some hist =>
            by_cases hl : hist.length < 25
            · refine ⟨"Insufficient historical data", ?_, ?_, ?_⟩ <;>
                simp only [generate_verified_prediction, hF, hH,
                  if_pos hl] <;> rfl
            · have hp : snap.currentPrice = 0 := by
                rcases herr with h | h | ⟨hist2, hh2, hl2⟩ | h
                · exact absurd hF h
                · rw [hH] at h; exact absurd h (by simp)
                · rw [hH] at hh2
                  obtain rfl := Option.some.inj hh2
                  exact absurd hl2 hl
                · exact h
              refine ⟨"No current price available", ?_, ?_, ?_⟩ <;>
                simp only [generate_verified_prediction, hF, hH, if_neg hl,
                  if_pos hp] <;> rfl

/-- Witness for C8: a 10-day history yields the degraded prediction with the
insufficient-history warning. -/
theorem claim_C8_degraded_results_witness :
    (generate_verified_prediction 0 shortSnapshot
        BEARISH_SENTIMENT_KEYWORDS).1.warnings =
      ["Insufficient historical data"] :=
  ((claim_C8_degraded_results 0 shortSnapshot BEARISH_SENTIMENT_KEYWORDS).1
    (List.replicate 10 sampleRow) rfl rfl (by decide)).2

/-- Duplicated keyword suffixes do not change the tier-2 decision: matching is
an existential over the keyword list. -/
theorem tier2_decision_append_self (kw s : List String)
    (hs : Option (List String)) :
    tier2_decision (kw ++ s ++ s) hs = tier2_decision (kw ++ s) hs := by
  unfold tier2_decision
  by_cases he : kw ++ s = []
  · have hs0 : s = [] := (List.append_eq_nil.mp he).2
    subst hs0
    simp
  · have he2 : ¬ kw ++ s ++ s = [] := by
      simp only [List.append_eq_nil] at he ⊢
      tauto
    rw [if_neg he2, if_neg he]
    cases hs with
    | none => rfl
    | some l =>
        have hany : ∀ title : String,
            ((kw ++ s ++ s).any fun k => containsSub k.toLower title.toLower) =
            ((kw ++ s).any fun k => containsSub k.toLower title.toLower) := by
          intro title
          simp only [List.any_append]
          cases kw.any fun k => containsSub k.toLower title.toLower <;>
            cases s.any fun k => containsSub k.toLower title.toLower <;> rfl
        have hfilter : ((l.take 10).filter
              (fun title => (kw ++ s ++ s).any
                fun k => containsSub k.toLower title.toLower)) =
            ((l.take 10).filter
              (fun title => (kw ++ s).any
                fun k => containsSub k.toLower title.toLower)) :=
          List.filter_congr (fun x _ => hany x)
        simp only [hfilter]

/-- Running the tier-2 check again on the table the first run produced yields
the same tier result: the in-place growth of the keyword table only appends
duplicate keywords, which cannot change any substring match. -/
theorem check_tier2_sentiment_result_idem (tbl : KeywordTable) (sym : String)
    (hs : Option (List String)) :
    (check_tier2_sentiment ((check_tier2_sentiment tbl sym hs).2) sym hs).1 =
      (check_tier2_sentiment tbl sym hs).1 := by
  by_cases hc : sym ∈ tier2_semi_symbols ∧ (tableLookup tbl sym).isSome
  · obtain ⟨hsemi, hsome⟩ := hc
    obtain ⟨kw, hkw⟩ := Option.isSome_iff_exists.mp hsome
    have hns : ¬ ("_SEMIS" = sym) := by
      intro he
      rw [← he] at hsemi
      exact absurd hsemi (by decide)
    have htbl : (check_tier2_sentiment tbl sym hs).2 =
        tableUpdate tbl sym (tier2_keywords tbl sym) := by
      show (if sym ∈ tier2_semi_symbols ∧ (tableLookup tbl sym).isSome then
          tableUpdate tbl sym (tier2_keywords tbl sym) else tbl) = _
      rw [if_pos ⟨hsemi, hsome⟩]
    have hk0 : tier2_keywords tbl sym =
        kw ++ (tableLookup tbl "_SEMIS").getD [] := by
      unfold tier2_keywords
      rw [hkw, if_pos hsemi]
      rfl
    have hk1 : ∀ v : List String, tier2_keywords (tableUpdate tbl sym v) sym =
        v ++ (tableLookup tbl "_SEMIS").getD [] := by
      intro v
      unfold tier2_keywords
      rw [tableLookup_tableUpdate_self, hkw,
        tableLookup_tableUpdate_ne tbl sym "_SEMIS" v hns, if_pos hsemi]
      rfl
    show tier2_decision
        (tier2_keywords ((check_tier2_sentiment tbl sym hs).2) sym) hs =
      tier2_decision (tier2_keywords tbl sym) hs
    rw [htbl, hk1 (tier2_keywords tbl sym), hk0]
    exact tier2_decision_append_self kw ((tableLookup tbl "_SEMIS").getD []) hs
  · have htbl : (check_tier2_sentiment tbl sym hs).2 = tbl := by
      show (if sym ∈ tier2_semi_symbols ∧ (tableLookup tbl sym).isSome then
          tableUpdate tbl sym (tier2_keywords tbl sym) else tbl) = _
      rw [if_neg hc]
    rw [htbl]

/-- Two degraded predictions that differ only in timestamp agree on every
other field. -/
theorem eqExceptTimestamp_empty (t₁ t₂ : Nat) (s r : String) :
    EqExceptTimestamp (empty_prediction t₁ s r) (empty_prediction t₂ s r) :=
  ⟨rfl, rfl, rfl, rfl, rfl, rfl, rfl, rfl, rfl, rfl, rfl, rfl, rfl, rfl, rfl,
   rfl, rfl, rfl, rfl⟩

/-- Two predictions built from the same snapshot, history and tier-2 result
agree on every field except the timestamp. -/
theorem eqExceptTimestamp_build (t₁ t₂ : Nat) (snap : Snapshot)
    (hist : List Row) (tr : TierResult) :
    EqExceptTimestamp (build_prediction t₁ snap hist tr)
      (build_prediction t₂ snap hist tr) :=
  ⟨rfl, rfl, rfl, rfl, rfl, rfl, rfl, rfl, rfl, rfl, rfl, rfl, rfl, rfl, rfl,
   rfl, rfl, rfl, rfl⟩

/-- Counterexample for C9: the claim asserts that no mutable state is shared
across calls, but one happy-path pipeline call for ASML returns the
module-level keyword table changed (the stored ASML entry grew in place), so
the second call starts from different module state than the first. -/
theorem claim_C9_counterexample :
    (generate_verified_prediction 0 asmlSnapshot
        BEARISH_SENTIMENT_KEYWORDS).2 ≠ BEARISH_SENTIMENT_KEYWORDS := by
  decide

/-- C9 (amended): over a frozen snapshot the pipeline is idempotent in its
output — two successive calls (the second starting from the module state the
first one left behind) produce predictions equal in every field except the
timestamp — but the module-level keyword table is NOT untouched: for
semiconductor symbols with their own entry the first call grows it in place,
a mutation that happens never to affect any output. -/
theorem claim_C9_output_idempotence (t₁ t₂ : Nat) (snap : Snapshot)
    (tbl : KeywordTable) :
    EqExceptTimestamp (generate_verified_prediction t₁ snap tbl).1
      (generate_verified_prediction t₂ snap
        ((generate_verified_prediction t₁ snap tbl).2)).1 := by
  cases hF : snap.fetchFailure with
  | some e =>
      simp only [generate_verified_prediction, hF]
      exact eqExceptTimestamp_empty t₁ t₂ (pyUpper snap.symbol) ("Error: " ++ e)
  | none =>
      cases hH : snap.hist with
      | none =>
          simp only [generate_verified_prediction, hF, hH]
          exact eqExceptTimestamp_empty t₁ t₂ (pyUpper snap.symbol)
            "Insufficient historical data"
      | some hist =>
          by_cases hl : hist.length < 25
          · simp only [generate_verified_prediction, hF, hH, if_pos hl]
            exact eqExceptTimestamp_empty t₁ t₂ (pyUpper snap.symbol)
              "Insufficient historical data"
          · by_cases hp : snap.currentPrice = 0
            · simp only [generate_verified_prediction, hF, hH, if_neg hl,
                if_pos hp]
              exact eqExceptTimestamp_empty t₁ t₂ (pyUpper snap.symbol)
                "No current price available"
            · have e1 := generate_happy_path t₁ snap tbl hist hF hH hl hp
              have e2 : (generate_verified_prediction t₁ snap tbl).2 =
                  (check_tier2_sentiment tbl (pyUpper snap.symbol)
                    snap.headlines).2 := by
                rw [e1]
              rw [e2, e1,
                generate_happy_path t₂ snap
                  (check_tier2_sentiment tbl (pyUpper snap.symbol)
                    snap.headlines).2 hist hF hH hl hp,
                check_tier2_sentiment_result_idem]
              exact eqExceptTimestamp_build t₁ t₂ snap hist
                (check_tier2_sentiment tbl (pyUpper snap.symbol) snap.headlines).1
